import Mathlib

/-!
Formal model of the web-scraper core (`web-scraper/scraper.py`): the single
attempt transport step, the retrying fetcher `fetch_html`, the page extractor
`parse_quotes`, the two persistence sinks (`save_to_csv` with `_file_exists`,
and `init_sqlite`), the pagination loop `scrape`, and the CLI entry `main`,
together with theorems checking the documented behavior of each component.
Effectful code is embedded as explicit state passing: the network is a
transcript of attempt outcomes, the CSV destination is an explicit file value,
the loop's collaborators are a record of observable behaviors.
-/

namespace Scraper

/-- Outcome of one HTTP round trip (`session.get`), after the library's
redirect handling: either a final response with a status code and a body, or a
connection failure, or a timeout. -/
inductive TransportOutcome
  | response (status : Nat) (body : String)
  | connectionFailure
  | timeoutFailure
deriving DecidableEq

/-- What a single transport attempt can raise: `resp.raise_for_status()`
raises an HTTPError exactly for status codes in `[400, 600)`, and
`session.get` itself can raise a connection error or a timeout. -/
inductive TransportError
  | httpError (status : Nat)
  | connectionError
  | timeoutError
deriving DecidableEq

/-- One attempt of the `try` body of `fetch_html`:
`resp = session.get(url, timeout=TIMEOUT)`, `resp.raise_for_status()`,
`return resp.text`. `raise_for_status` raises only for 4xx/5xx codes. -/
def singleFetch : TransportOutcome → Except TransportError String
  | .response s b => if 400 ≤ s ∧ s < 600 then .error (.httpError s) else .ok b
  | .connectionFailure => .error .connectionError
  | .timeoutFailure => .error .timeoutError

/-- The RuntimeError raised when `fetch_html` exhausts its loop: the message
interpolates `retries`, and the exception is chained `from last_exc` (`none`
when the loop body never ran). -/
structure ExhaustedError where
  msgRetries : Int
  cause : Option TransportError
deriving DecidableEq

instance {ε α : Type} [DecidableEq ε] [DecidableEq α] : DecidableEq (Except ε α) :=
  fun x y =>
    match x, y with
    | .ok a, .ok b =>
        if h : a = b then .isTrue (by rw [h]) else .isFalse (by intro hc; cases hc; exact h rfl)
    | .error a, .error b =>
        if h : a = b then .isTrue (by rw [h]) else .isFalse (by intro hc; cases hc; exact h rfl)
    | .ok _, .error _ => .isFalse (by intro hc; cases hc)
    | .error _, .ok _ => .isFalse (by intro hc; cases hc)

/-- Observable outcome of one `fetch_html` call: the returned body or the
raised error, the number of transport attempts actually performed, and the
backoff sleeps in the order they happened. -/
structure FetchOutcome where
  result : Except ExhaustedError String
  attempts : Nat
  sleeps : List ℚ
deriving DecidableEq

def isErr {ε α : Type} : Except ε α → Bool
  | .error _ => true
  | .ok _ => false

def errOf {ε α : Type} : Except ε α → Option ε
  | .error e => some e
  | .ok _ => none

/-- The `for attempt in range(1, retries + 1)` loop of `fetch_html`, recursing
over the list of remaining attempt numbers. `transcript k` is what the network
does on attempt `k`; `jitter k` is the value `random.uniform(0, 0.2)` draws on
attempt `k`. Every failed attempt sets `last_exc`, then sleeps
`backoff ** attempt + jitter`; when the attempt list is exhausted the
RuntimeError is raised from `last_exc`. -/
def fetchLoop (transcript : Nat → TransportOutcome) (retries : Int) (backoff : ℚ)
    (jitter : Nat → ℚ) :
    List Nat → Option TransportError → Nat → List ℚ → FetchOutcome
  | [], lastExc, attempts, sleeps =>
      ⟨.error ⟨retries, lastExc⟩, attempts, sleeps.reverse⟩
  | attempt :: rest, _lastExc, attempts, sleeps =>
      match singleFetch (transcript attempt) with
      | .ok body => ⟨.ok body, attempts + 1, sleeps.reverse⟩
      | .error e =>
          fetchLoop transcript retries backoff jitter rest (some e) (attempts + 1)
            ((backoff ^ attempt + jitter attempt) :: sleeps)

/-- `range(1, retries + 1)`: the attempt numbers `1, …, retries`; empty when
`retries ≤ 0`. -/
def attemptRange (retries : Int) : List Nat := List.range' 1 retries.toNat

/-- Model of `fetch_html(session, url, retries, backoff)`. -/
def fetch_html (transcript : Nat → TransportOutcome) (retries : Int) (backoff : ℚ)
    (jitter : Nat → ℚ) : FetchOutcome :=
  fetchLoop transcript retries backoff jitter (attemptRange retries) none 0 []

/-- One `div.quote` element as `parse_quotes` sees it through its selectors:
the optional stripped text of `span.text` and of `small.author`, and the
stripped texts of the `div.tags a.tag` nodes, in document order. -/
structure QuoteDiv where
  text : Option String
  author : Option String
  tagNodes : List String
deriving DecidableEq

/-- A parsed page as `parse_quotes` sees it: the `div.quote` elements in
document order, and the optional `li.next a` element together with its
optional `href` attribute. -/
structure Soup where
  quotes : List QuoteDiv
  nextLink : Option (Option String)
deriving DecidableEq

/-- One extracted record — the dict literal appended inside the loop of
`parse_quotes`, with key order quote, author, tags. -/
structure Record where
  quote : String
  author : String
  tags : String
deriving DecidableEq

/-- The record built from one `div.quote` element: a missing sub-element
yields `""` for that field; tags are joined with `", "` (and `""` when there
are no tag nodes). -/
def recordOfDiv (q : QuoteDiv) : Record where
  quote := match q.text with | some t => t | none => ""
  author := match q.author with | some a => a | none => ""
  tags := match q.tagNodes with | [] => "" | ts => String.intercalate ", " ts

/-- Model of `parse_quotes(html)`: the records in document order, and
`next_link.get("href") if next_link else None`. -/
def parse_quotes (s : Soup) : List Record × Option String :=
  (s.quotes.map recordOfDiv,
   match s.nextLink with
   | some href => href
   | none => none)

/-- A CSV record as handed to `csv.DictWriter`: an insertion-ordered dict of
field name to value. -/
abbrev Row := List (String × String)

/-- The CSV destination: `none` when the file is absent, otherwise its lines,
each a list of cells. `some []` is an existing file of zero size. -/
abbrev CsvFile := Option (List (List String))

/-- Model of `_file_exists(path)`:
`os.path.exists(path) and os.path.getsize(path) > 0`. -/
def _file_exists (f : CsvFile) : Bool :=
  match f with
  | none => false
  | some ls => !ls.isEmpty

def dictKeys (r : Row) : List String := r.map Prod.fst

/-- `DictWriter` cell rendering for one field name of one record (a missing
key renders as the empty cell). -/
def lookupD (r : Row) (k : String) : String :=
  match r.find? (fun p => p.1 == k) with
  | some p => p.2
  | none => ""

/-- The data lines `writer.writerows(rows)` appends for one batch, using the
field names of the batch's first record. -/
def dataLines (rows : List Row) : List (List String) :=
  match rows with
  | [] => []
  | r0 :: _ => rows.map (fun r => (dictKeys r0).map (lookupD r))

/-- Model of `save_to_csv(rows, csv_path)` as a transformer of the destination
file: an empty batch returns early without touching the file; otherwise the
file is opened in append mode (created if absent) and a header line of the
first record's field names is written first exactly when `_file_exists` was
false at the moment of the call. -/
def save_to_csv (rows : List Row) (f : CsvFile) : CsvFile :=
  match rows with
  | [] => f
  | r0 :: _ =>
      some ((f.getD []) ++ (if _file_exists f then [] else [dictKeys r0]) ++ dataLines rows)

/-- A sequence of `save_to_csv` calls against the same destination — also
across separate process runs, since the only state is the file itself. -/
def runBatches (batches : List (List Row)) (f : CsvFile) : CsvFile :=
  match batches with
  | [] => f
  | b :: bs => runBatches bs (save_to_csv b f)

/-- One column declaration of the `quotes` table. -/
structure Column where
  name : String
  declType : String
  notNull : Bool
  pkAutoincrement : Bool
deriving DecidableEq

/-- The column list of the `CREATE TABLE` statement issued by `init_sqlite`:
`id INTEGER PRIMARY KEY AUTOINCREMENT, quote TEXT NOT NULL, author TEXT,
tags TEXT`. -/
def quotesTableColumns : List Column :=
  [⟨"id", "INTEGER", false, true⟩,
   ⟨"quote", "TEXT", true, false⟩,
   ⟨"author", "TEXT", false, false⟩,
   ⟨"tags", "TEXT", false, false⟩]

/-- Model of `init_sqlite(db_path)`: the database state is its optional
`quotes` table; `CREATE TABLE IF NOT EXISTS` creates the table when absent and
leaves a pre-existing table untouched. -/
def init_sqlite (db : Option (List Column)) : Option (List Column) :=
  match db with
  | some existing => some existing
  | none => some quotesTableColumns

/-- The exceptions that can cross `scrape`'s frame: the `RuntimeError` raised
by `fetch_html` on retry exhaustion, `KeyboardInterrupt` (a `BaseException`,
so it passes through every `except Exception` on the way up), and OS-level
errors raised by the sinks. -/
inductive PyExc
  | runtimeError (msg : String)
  | keyboardInterrupt
  | osError (msg : String)
deriving DecidableEq

/-- The collaborators `scrape` calls, abstracted to their observable behavior
for one run: `fetch_html` on a url either returns html or raises; a sink call
or `init_sqlite` either returns or raises; `parse_quotes` and `urljoin` are
pure functions of their arguments. -/
structure ScrapeEnv where
  fetch_html : String → Except PyExc String
  parse_quotes : String → List Record × Option String
  save_to_csv : List Record → String → Except PyExc Unit
  save_to_sqlite : List Record → String → Except PyExc Unit
  init_sqlite : String → Except PyExc Unit
  urljoin : String → String → String

/-- How a `scrape` run ends: `break` at the page limit, `break` at a missing
next link, an uncaught exception, or — a model artifact only — running out of
fuel while the loop would continue. -/
inductive RunOutcome
  | reachedLimit
  | exhaustedPages
  | excRaised (e : PyExc)
  | fuelOut
deriving DecidableEq

/-- Observable trace of a `scrape` run: how it ended, how many `fetch_html`
calls were issued, how many full fetch/extract/persist cycles completed, and
the batches each sink was invoked with, in order. -/
structure ScrapeTrace where
  outcome : RunOutcome
  fetches : Nat
  cycles : Nat
  csvBatches : List (List Record)
  sqliteBatches : List (List Record)
deriving DecidableEq

/-- Python truthiness of `limit_pages and page >= limit_pages`
(`None` and `0` are falsy). -/
def limitHit (limit_pages : Option Nat) (page : Nat) : Bool :=
  match limit_pages with
  | some l => decide (l ≠ 0 ∧ l ≤ page)
  | none => false

/-- `if csv_path: save_to_csv(items, csv_path)` — the call's outcome paired
with the updated invocation log of the csv sink. -/
def csvSinkStep (env : ScrapeEnv) (csv_path : Option String) (items : List Record)
    (csvB : List (List Record)) : Except PyExc Unit × List (List Record) :=
  match csv_path with
  | some p => (env.save_to_csv items p, items :: csvB)
  | none => (.ok (), csvB)

/-- `if sqlite_path: save_to_sqlite(items, sqlite_path)` — the call's outcome
paired with the updated invocation log of the sqlite sink. -/
def sqliteSinkStep (env : ScrapeEnv) (sqlite_path : Option String) (items : List Record)
    (sqlB : List (List Record)) : Except PyExc Unit × List (List Record) :=
  match sqlite_path with
  | some p => (env.save_to_sqlite items p, items :: sqlB)
  | none => (.ok (), sqlB)

/-- The `while True:` loop of `scrape`: increment the page counter, fetch,
extract, drive the csv sink then the sqlite sink, break on the page limit or
on a falsy next href (absent or empty), otherwise sleep politely and follow
`urljoin(url, next_href)`. Exceptions from `fetch_html` or a sink are not
caught: they abort the loop. Fuel only bounds the model's recursion; every
theorem supplies enough fuel. -/
def scrapeLoop (env : ScrapeEnv) (limit_pages : Option Nat)
    (csv_path sqlite_path : Option String) :
    String → Nat → Nat → Nat → List (List Record) → List (List Record) → Nat →
    ScrapeTrace
  | _, _, fetches, cycles, csvB, sqlB, 0 =>
      ⟨.fuelOut, fetches, cycles, csvB.reverse, sqlB.reverse⟩
  | url, page, fetches, cycles, csvB, sqlB, fuel + 1 =>
      match env.fetch_html url with
      | .error e => ⟨.excRaised e, fetches + 1, cycles, csvB.reverse, sqlB.reverse⟩
      | .ok html =>
          let items := (env.parse_quotes html).1
          let next_href := (env.parse_quotes html).2
          let cres := csvSinkStep env csv_path items csvB
          match cres.1 with
          | .error e => ⟨.excRaised e, fetches + 1, cycles, cres.2.reverse, sqlB.reverse⟩
          | .ok _ =>
              let sres := sqliteSinkStep env sqlite_path items sqlB
              match sres.1 with
              | .error e => ⟨.excRaised e, fetches + 1, cycles, cres.2.reverse, sres.2.reverse⟩
              | .ok _ =>
                  if limitHit limit_pages (page + 1) then
                    ⟨.reachedLimit, fetches + 1, cycles + 1, cres.2.reverse, sres.2.reverse⟩
                  else
                    match next_href with
                    | none =>
                        ⟨.exhaustedPages, fetches + 1, cycles + 1, cres.2.reverse, sres.2.reverse⟩
                    | some h =>
                        if h = "" then
                          ⟨.exhaustedPages, fetches + 1, cycles + 1, cres.2.reverse, sres.2.reverse⟩
                        else
                          scrapeLoop env limit_pages csv_path sqlite_path
                            (env.urljoin url h) (page + 1) (fetches + 1) (cycles + 1)
                            cres.2 sres.2 fuel

def BASE_URL : String := "https://quotes.toscrape.com"

/-- Model of `scrape(...)`: `init_sqlite` first when a sqlite path is
configured (its exception also propagates), then the page loop from
`BASE_URL` with the page counter starting at 0. -/
def scrape (env : ScrapeEnv) (limit_pages : Option Nat)
    (csv_path sqlite_path : Option String) (fuel : Nat) : ScrapeTrace :=
  match sqlite_path with
  | some p =>
      match env.init_sqlite p with
      | .error e => ⟨.excRaised e, 0, 0, [], []⟩
      | .ok _ => scrapeLoop env limit_pages csv_path sqlite_path BASE_URL 0 0 0 [] [] fuel
  | none => scrapeLoop env limit_pages csv_path sqlite_path BASE_URL 0 0 0 [] [] fuel

/-- Python `str.strip()`: drop leading and trailing whitespace (written over
the character data so it is kernel-computable). -/
def pyStrip (s : String) : String :=
  ⟨((s.data.dropWhile Char.isWhitespace).reverse.dropWhile Char.isWhitespace).reverse⟩

/-- `args.csv_path if args.csv_path.strip() else None` — keeps the original,
unstripped string when truthy. -/
def normalizeCsvPath (s : String) : Option String :=
  if (pyStrip s).data.isEmpty then none else some s

/-- `args.sqlite_path.strip() or None` — keeps the stripped string. -/
def normalizeSqlitePath (s : String) : Option String :=
  if (pyStrip s).data.isEmpty then none else some (pyStrip s)

/-- `args.limit_pages if args.limit_pages > 0 else None`. -/
def normalizeLimit (i : Int) : Option Nat :=
  if 0 < i then some i.toNat else none

/-- Model of `main(argv)`: normalize the parsed arguments, run `scrape`, and
map the ending to the returned exit code — `0` on normal return,
`2` on `KeyboardInterrupt`, `1` on any other exception. `none` only for the
out-of-fuel model artifact, which corresponds to no process exit at all. -/
def main (env : ScrapeEnv) (csv_path_arg sqlite_path_arg : String)
    (limit_pages_arg : Int) (fuel : Nat) : Option Nat :=
  let t := scrape env (normalizeLimit limit_pages_arg) (normalizeCsvPath csv_path_arg)
    (normalizeSqlitePath sqlite_path_arg) fuel
  match t.outcome with
  | .reachedLimit => some 0
  | .exhaustedPages => some 0
  | .excRaised .keyboardInterrupt => some 2
  | .excRaised _ => some 1
  | .fuelOut => none

/-- Environment for runs where every fetch echoes the url as html, every page
links to `/next/` with no records, and both sinks and init succeed. -/
def envAlwaysNext : ScrapeEnv where
  fetch_html := fun u => .ok u
  parse_quotes := fun _ => ([], some "/next/")
  save_to_csv := fun _ _ => .ok ()
  save_to_sqlite := fun _ _ => .ok ()
  init_sqlite := fun _ => .ok ()
  urljoin := fun _ h => h

/-- Environment with a two-page chain: the seed page links to `/page/2/`,
which has no next link. -/
def envChain2 : ScrapeEnv :=
  { envAlwaysNext with
    parse_quotes := fun h => ([], if h = BASE_URL then some "/page/2/" else none) }

/-- Environment where every fetch raises the retry-exhaustion RuntimeError. -/
def envFetchFail : ScrapeEnv :=
  { envAlwaysNext with fetch_html := fun _ => .error (.runtimeError "Failed to fetch") }

/-- Environment where the first fetch is interrupted by the user. -/
def envInterrupted : ScrapeEnv :=
  { envAlwaysNext with fetch_html := fun _ => .error .keyboardInterrupt }

/-- A sample record. -/
def recQ : Record := ⟨"q", "a", "t"⟩

/-- Environment where pages always carry one record and a next link and the
sqlite sink works, but every csv write raises an OS error. -/
def envCsvFail : ScrapeEnv :=
  { envAlwaysNext with
    parse_quotes := fun _ => ([recQ], some "/next/")
    save_to_csv := fun _ _ => .error (.osError "disk full") }

/-- Transport transcript that always fails with a connection error. -/
def transcriptFail : Nat → TransportOutcome := fun _ => .connectionFailure

/-- Transport transcript that fails the first two attempts and returns a 200
response on the third. -/
def transcriptThird : Nat → TransportOutcome :=
  fun k => if k ≤ 2 then .connectionFailure else .response 200 "ok!"

/-- A page with two quote divs — the first missing its text, the second
missing its author — and no next link. -/
def soupW : Soup := ⟨[⟨none, some "A", []⟩, ⟨some "Q", none, ["a", "b"]⟩], none⟩

/-- A sample CSV record. -/
def rowQ : Row := [("quote", "Q"), ("author", "A"), ("tags", "T")]

/-- The url sequence of the two-page chain of `envChain2`. -/
def urlsChain2 : Nat → String := fun i => if i = 0 then BASE_URL else "/page/2/"

/-- Claim C7 (amended): a single transport attempt raises exactly for status
codes in the 4xx/5xx ranges, for connection failure and for timeout; any
other final response — 2xx, but also e.g. a surviving 304 — returns the raw
body. -/
theorem claim_C7 : ∀ (s : Nat) (b : String),
    (400 ≤ s ∧ s < 600 → singleFetch (.response s b) = .error (.httpError s))
  ∧ (¬(400 ≤ s ∧ s < 600) → singleFetch (.response s b) = .ok b)
  ∧ singleFetch .connectionFailure = .error .connectionError
  ∧ singleFetch .timeoutFailure = .error .timeoutError := by
  intro s b
  refine ⟨fun h => ?_, fun h => ?_, rfl, rfl⟩
  · simp [singleFetch, h]
  · simp [singleFetch, h]

/-- Claim C7, counterexample to the claim as stated: a 304 response is not in
the 2xx range, yet the single-attempt fetch returns its body instead of
raising. -/
theorem claim_C7_counterexample :
    singleFetch (.response 304 "cached") = .ok "cached" ∧ ¬(200 ≤ 304 ∧ 304 < 300) := by
  exact ⟨rfl, by omega⟩

/-- Claim C7, witness: a 503 raises, a 200 returns the body. -/
theorem claim_C7_witness :
    singleFetch (.response 503 "oops") = .error (.httpError 503)
  ∧ singleFetch (.response 200 "okay") = .ok "okay" :=
  ⟨(claim_C7 503 "oops").1 (by omega), (claim_C7 200 "okay").2.1 (by omega)⟩

/-- Claim C6 (amended): `init_sqlite` issues an idempotent create-if-absent
statement — a pre-existing table is left unchanged — whose schema is an
auto-incrementing `id` column plus one TEXT column per Record field, where the
`quote` column is declared NOT NULL and `author` and `tags` are nullable. -/
theorem claim_C6 :
    (∀ t, init_sqlite (some t) = some t)
  ∧ init_sqlite none = some quotesTableColumns
  ∧ quotesTableColumns.map Column.name = ["id", "quote", "author", "tags"]
  ∧ (∀ c ∈ quotesTableColumns, c.pkAutoincrement = decide (c.name = "id"))
  ∧ (∀ c ∈ quotesTableColumns, c.name ≠ "id" → c.declType = "TEXT")
  ∧ (∀ c ∈ quotesTableColumns, c.notNull = decide (c.name = "quote")) := by
  exact ⟨fun t => rfl, rfl, by decide, by decide, by decide, by decide⟩

/-- Claim C6, counterexample to the claim as stated: not every Record-field
column of the created table is nullable — the `quote` column is NOT NULL. -/
theorem claim_C6_counterexample :
    ¬ (∀ c ∈ quotesTableColumns, ¬ c.pkAutoincrement → c.notNull = false) := by
  decide

/-- Claim C6, witness: initializing over an existing table leaves it
unchanged, and the author column is TEXT. -/
theorem claim_C6_witness :
    init_sqlite (some quotesTableColumns) = some quotesTableColumns
  ∧ Column.declType ⟨"author", "TEXT", false, false⟩ = "TEXT" :=
  ⟨claim_C6.1 quotesTableColumns,
   claim_C6.2.2.2.2.1 ⟨"author", "TEXT", false, false⟩ (by decide) (by decide)⟩

/-- Claim C8: `parse_quotes` is total on every parsed page; the i-th record
comes from the i-th quote div (document order, record always present), a
missing sub-element yields the empty string for its field, zero quote divs
yield the empty item list, and an absent next element yields no next
reference. -/
theorem claim_C8 : ∀ (s : Soup),
    (parse_quotes s).1.length = s.quotes.length
  ∧ (∀ (i : Nat) (q : QuoteDiv), s.quotes[i]? = some q →
        (parse_quotes s).1[i]? = some (recordOfDiv q)
      ∧ (q.text = none → (recordOfDiv q).quote = "")
      ∧ (q.author = none → (recordOfDiv q).author = "")
      ∧ (q.tagNodes = [] → (recordOfDiv q).tags = ""))
  ∧ (s.quotes = [] → (parse_quotes s).1 = [])
  ∧ (s.nextLink = none → (parse_quotes s).2 = none) := by
  intro s
  refine ⟨by simp [parse_quotes],
    fun i q hq => ⟨?_, fun h => ?_, fun h => ?_, fun h => ?_⟩,
    fun h => by simp [parse_quotes, h], fun h => by simp [parse_quotes, h]⟩
  · simp [parse_quotes, hq]
  · simp [recordOfDiv, h]
  · simp [recordOfDiv, h]
  · simp [recordOfDiv, h]

/-- Claim C8, witness: on a concrete page with malformed records, the record
missing its text is still present at index 0 with an empty quote field, and
the absent next element gives no next reference. -/
theorem claim_C8_witness :
    (parse_quotes soupW).1[0]? = some (recordOfDiv ⟨none, some "A", []⟩)
  ∧ Record.quote (recordOfDiv ⟨none, some "A", []⟩) = ""
  ∧ (parse_quotes soupW).2 = none :=
  ⟨((claim_C8 soupW).2.1 0 ⟨none, some "A", []⟩ rfl).1,
   ((claim_C8 soupW).2.1 0 ⟨none, some "A", []⟩ rfl).2.1 rfl,
   (claim_C8 soupW).2.2.2 rfl⟩

/-- Claim C10: calling `fetch_html` with a non-positive retry count performs
no transport attempt and raises the RuntimeError at once, with no chained
cause and no backoff sleep, since `range(1, retries + 1)` is empty. -/
theorem claim_C10 : ∀ (transcript : Nat → TransportOutcome) (retries : Int)
    (backoff : ℚ) (jitter : Nat → ℚ), retries ≤ 0 →
    fetch_html transcript retries backoff jitter = ⟨.error ⟨retries, none⟩, 0, []⟩ := by
  intro tr retries b j h
  have h0 : retries.toNat = 0 := by omega
  simp [fetch_html, attemptRange, h0, fetchLoop]

/-- Claim C10, witness at `retries = -2`. -/
theorem claim_C10_witness :
    fetch_html transcriptFail (-2) (3 / 2) (fun _ => 0) = ⟨.error ⟨-2, none⟩, 0, []⟩ :=
  claim_C10 transcriptFail (-2) (3 / 2) (fun _ => 0) (by omega)

theorem isErr_iff {ε α : Type} (o : Except ε α) : isErr o = true ↔ ∃ e, o = .error e := by
  cases o <;> simp [isErr]

/-- When every listed attempt fails, `fetchLoop` runs them all, sleeping once
per failure, and raises from the last recorded exception. -/
theorem fetchLoop_all_fail (transcript : Nat → TransportOutcome) (retries : Int)
    (backoff : ℚ) (jitter : Nat → ℚ) :
    ∀ (as : List Nat) (lastExc : Option TransportError) (attempts : Nat) (sleeps : List ℚ),
      (∀ k ∈ as, isErr (singleFetch (transcript k)) = true) →
      fetchLoop transcript retries backoff jitter as lastExc attempts sleeps
        = ⟨.error ⟨retries, as.foldl (fun _ k => errOf (singleFetch (transcript k))) lastExc⟩,
           attempts + as.length,
           sleeps.reverse ++ as.map (fun k => backoff ^ k + jitter k)⟩ := by
  intro as
  induction as with
  | nil => intro lastExc attempts sleeps _; simp [fetchLoop]
  | cons a rest ih =>
      intro lastExc attempts sleeps hfail
      obtain ⟨e, he⟩ := (isErr_iff _).1 (hfail a (by simp))
      have hstep : fetchLoop transcript retries backoff jitter (a :: rest) lastExc attempts sleeps
          = fetchLoop transcript retries backoff jitter rest (some e) (attempts + 1)
              ((backoff ^ a + jitter a) :: sleeps) := by
        simp [fetchLoop, he]
      rw [hstep, ih (some e) (attempts + 1) _ (fun k hk => hfail k (by simp [hk]))]
      simp only [List.foldl_cons, he, errOf, List.length_cons, List.map_cons,
        List.reverse_cons, List.append_assoc, List.singleton_append, FetchOutcome.mk.injEq]
      exact ⟨trivial, by omega, trivial⟩

/-- When the listed attempts start with failures followed by a success,
`fetchLoop` returns the successful body, having slept once per preceding
failure and never after the success. -/
theorem fetchLoop_first_ok (transcript : Nat → TransportOutcome) (retries : Int)
    (backoff : ℚ) (jitter : Nat → ℚ) :
    ∀ (as₁ : List Nat) (k₀ : Nat) (as₂ : List Nat) (b : String)
      (lastExc : Option TransportError) (attempts : Nat) (sleeps : List ℚ),
      (∀ k ∈ as₁, isErr (singleFetch (transcript k)) = true) →
      singleFetch (transcript k₀) = .ok b →
      fetchLoop transcript retries backoff jitter (as₁ ++ k₀ :: as₂) lastExc attempts sleeps
        = ⟨.ok b, attempts + as₁.length + 1,
           sleeps.reverse ++ as₁.map (fun k => backoff ^ k + jitter k)⟩ := by
  intro as₁
  induction as₁ with
  | nil =>
      intro k₀ as₂ b lastExc attempts sleeps _ hok
      simp [fetchLoop, hok]
  | cons a rest ih =>
      intro k₀ as₂ b lastExc attempts sleeps hfail hok
      obtain ⟨e, he⟩ := (isErr_iff _).1 (hfail a (by simp))
      have hstep : fetchLoop transcript retries backoff jitter
            ((a :: rest) ++ k₀ :: as₂) lastExc attempts sleeps
          = fetchLoop transcript retries backoff jitter (rest ++ k₀ :: as₂) (some e)
              (attempts + 1) ((backoff ^ a + jitter a) :: sleeps) := by
        simp [fetchLoop, he]
      rw [hstep, ih k₀ as₂ b (some e) (attempts + 1) _
        (fun k hk => hfail k (by simp [hk])) hok]
      simp only [List.length_cons, List.map_cons, List.reverse_cons, List.append_assoc,
        List.singleton_append, FetchOutcome.mk.injEq]
      exact ⟨trivial, by omega, trivial⟩

/-- `fetchLoop` ends in either a returned body or the RuntimeError wrapper
carrying the configured retry count — never in a bare transport error. -/
theorem fetchLoop_shape (transcript : Nat → TransportOutcome) (retries : Int)
    (backoff : ℚ) (jitter : Nat → ℚ) :
    ∀ (as : List Nat) (lastExc : Option TransportError) (attempts : Nat) (sleeps : List ℚ),
      (∃ b, (fetchLoop transcript retries backoff jitter as lastExc attempts sleeps).result
        = .ok b)
    ∨ (∃ c, (fetchLoop transcript retries backoff jitter as lastExc attempts sleeps).result
        = .error ⟨retries, c⟩) := by
  intro as
  induction as with
  | nil => intro lastExc attempts sleeps; exact .inr ⟨lastExc, rfl⟩
  | cons a rest ih =>
      intro lastExc attempts sleeps
      cases hsf : singleFetch (transcript a) with
      | ok b => exact .inl ⟨b, by simp [fetchLoop, hsf]⟩
      | error e =>
          have := ih (some e) (attempts + 1) ((backoff ^ a + jitter a) :: sleeps)
          simpa [fetchLoop, hsf] using this

theorem mem_attemptRange {k : Nat} {retries : Int} :
    k ∈ attemptRange retries ↔ 1 ≤ k ∧ (k : Int) ≤ retries := by
  rw [attemptRange, List.mem_range']
  constructor
  · rintro ⟨i, hi, rfl⟩; omega
  · rintro ⟨h1, h2⟩; exact ⟨k - 1, by omega, by omega⟩

theorem attemptRange_split {k₀ : Nat} {retries : Int} (h1 : 1 ≤ k₀)
    (h2 : (k₀ : Int) ≤ retries) :
    attemptRange retries
      = List.range' 1 (k₀ - 1) ++ k₀ :: List.range' (k₀ + 1) (retries.toNat - k₀) := by
  rw [attemptRange]
  calc List.range' 1 retries.toNat
      = List.range' 1 ((retries.toNat - k₀ + 1) + (k₀ - 1)) := by congr 1; omega
    _ = List.range' 1 (k₀ - 1) ++ List.range' (1 + (k₀ - 1)) (retries.toNat - k₀ + 1) :=
        (List.range'_append_1 1 (k₀ - 1) (retries.toNat - k₀ + 1)).symm
    _ = List.range' 1 (k₀ - 1) ++ List.range' k₀ ((retries.toNat - k₀) + 1) := by
        rw [show 1 + (k₀ - 1) = k₀ from by omega]
    _ = List.range' 1 (k₀ - 1) ++ k₀ :: List.range' (k₀ + 1) (retries.toNat - k₀) := by
        rw [List.range'_succ]

/-- Claim C3: for every transcript of transport outcomes, `fetch_html` with
`retries = N ≥ 1` returns the body of the first successful attempt without
raising; when all `N` attempts fail it raises the RuntimeError whose message
carries `N` and whose chained cause is the last attempt's transport failure,
after exactly `N` attempts; and every possible result is either a body or
that wrapper — the caller never sees a bare transport error. -/
theorem claim_C3 : ∀ (transcript : Nat → TransportOutcome) (retries : Int)
    (backoff : ℚ) (jitter : Nat → ℚ), 1 ≤ retries →
    (∀ (k₀ : Nat) (b : String), 1 ≤ k₀ → (k₀ : Int) ≤ retries →
        singleFetch (transcript k₀) = .ok b →
        (∀ j, 1 ≤ j → j < k₀ → isErr (singleFetch (transcript j)) = true) →
        (fetch_html transcript retries backoff jitter).result = .ok b)
  ∧ ((∀ (k : Nat), 1 ≤ k → (k : Int) ≤ retries → isErr (singleFetch (transcript k)) = true) →
        (fetch_html transcript retries backoff jitter).result
          = .error ⟨retries, errOf (singleFetch (transcript retries.toNat))⟩
      ∧ (fetch_html transcript retries backoff jitter).attempts = retries.toNat)
  ∧ (∀ (res : Except ExhaustedError String),
        (fetch_html transcript retries backoff jitter).result = res →
        (∃ b, res = .ok b) ∨ (∃ c, res = .error ⟨retries, c⟩)) := by
  intro transcript retries backoff jitter hret
  refine ⟨fun k₀ b h1 h2 hok hprev => ?_, fun hall => ?_, fun res hres => ?_⟩
  · rw [fetch_html, attemptRange_split h1 h2,
      fetchLoop_first_ok transcript retries backoff jitter _ k₀ _ b none 0 []
        (fun k hk => by
          rw [List.mem_range'] at hk
          obtain ⟨i, hi, rfl⟩ := hk
          exact hprev _ (by omega) (by omega)) hok]
  · have hsplit : attemptRange retries
        = List.range' 1 (retries.toNat - 1) ++ [retries.toNat] := by
      rw [attemptRange]
      calc List.range' 1 retries.toNat
          = List.range' 1 ((retries.toNat - 1) + 1) := by congr 1; omega
        _ = List.range' 1 (retries.toNat - 1) ++ [1 + (retries.toNat - 1)] :=
            List.range'_1_concat 1 (retries.toNat - 1)
        _ = List.range' 1 (retries.toNat - 1) ++ [retries.toNat] := by
            rw [show 1 + (retries.toNat - 1) = retries.toNat from by omega]
    rw [fetch_html, fetchLoop_all_fail transcript retries backoff jitter _ none 0 []
      (fun k hk => hall k (mem_attemptRange.1 hk).1 (mem_attemptRange.1 hk).2)]
    refine ⟨?_, by simp [attemptRange]⟩
    rw [hsplit, List.foldl_append]
    simp
  · rw [fetch_html] at hres
    rcases fetchLoop_shape transcript retries backoff jitter (attemptRange retries) none 0 []
      with ⟨b, hb⟩ | ⟨c, hc⟩
    · exact .inl ⟨b, hres ▸ hb⟩
    · exact .inr ⟨c, hres ▸ hc⟩

/-- Claim C3, witness: the spec's two scenarios at `maxAttempts = 3` — a
transport failing twice then succeeding returns the third body; an
always-failing transport raises the wrapper with the retry count and the last
connection error as cause. -/
theorem claim_C3_witness :
    (fetch_html transcriptThird 3 (3 / 2) (fun _ => 0)).result = .ok "ok!"
  ∧ (fetch_html transcriptFail 3 (3 / 2) (fun _ => 0)).result
      = .error ⟨3, errOf (singleFetch (transcriptFail 3))⟩ := by
  constructor
  · exact (claim_C3 transcriptThird 3 (3 / 2) (fun _ => 0) (by omega)).1 3 "ok!"
      (by omega) (by omega) rfl (fun j h1 h2 => by interval_cases j <;> rfl)
  · exact ((claim_C3 transcriptFail 3 (3 / 2) (fun _ => 0) (by omega)).2.1
      (fun k _ _ => rfl)).1

/-- Claim C4 (amended): the fetcher sleeps `backoff ^ k + jitter k` seconds
after every failed attempt `k` — including the final failed attempt, where
the sleep happens just before the RuntimeError is raised — and never sleeps
after a successful attempt. -/
theorem claim_C4 : ∀ (transcript : Nat → TransportOutcome) (retries : Int)
    (backoff : ℚ) (jitter : Nat → ℚ),
    ((∀ (k : Nat), 1 ≤ k → (k : Int) ≤ retries → isErr (singleFetch (transcript k)) = true) →
        (fetch_html transcript retries backoff jitter).sleeps
          = (List.range' 1 retries.toNat).map (fun k => backoff ^ k + jitter k))
  ∧ (∀ (k₀ : Nat) (b : String), 1 ≤ k₀ → (k₀ : Int) ≤ retries →
        singleFetch (transcript k₀) = .ok b →
        (∀ j, 1 ≤ j → j < k₀ → isErr (singleFetch (transcript j)) = true) →
        (fetch_html transcript retries backoff jitter).sleeps
          = (List.range' 1 (k₀ - 1)).map (fun k => backoff ^ k + jitter k)) := by
  intro transcript retries backoff jitter
  constructor
  · intro hall
    rw [fetch_html, fetchLoop_all_fail transcript retries backoff jitter _ none 0 []
      (fun k hk => hall k (mem_attemptRange.1 hk).1 (mem_attemptRange.1 hk).2)]
    simp [attemptRange]
  · intro k₀ b h1 h2 hok hprev
    rw [fetch_html, attemptRange_split h1 h2,
      fetchLoop_first_ok transcript retries backoff jitter _ k₀ _ b none 0 []
        (fun k hk => by
          rw [List.mem_range'] at hk
          obtain ⟨i, hi, rfl⟩ := hk
          exact hprev _ (by omega) (by omega)) hok]
    simp

/-- Claim C4, counterexample to the claim as stated: with a single attempt
that fails, there is no next attempt, yet the fetcher still sleeps
`backoff ^ 1 + jitter` before raising — a suspension after the final failed
attempt. -/
theorem claim_C4_counterexample :
    (fetch_html transcriptFail 1 (3 / 2) (fun _ => 0)).result
      = .error ⟨1, some .connectionError⟩
  ∧ (fetch_html transcriptFail 1 (3 / 2) (fun _ => 0)).attempts = 1
  ∧ (fetch_html transcriptFail 1 (3 / 2) (fun _ => 0)).sleeps = [3 / 2] := by
  refine ⟨?_, ?_, ?_⟩ <;>
    norm_num [fetch_html, attemptRange, fetchLoop, transcriptFail, singleFetch]

/-- Claim C4, witness: three failing attempts sleep three times (including
after the final failure); failing twice then succeeding sleeps exactly twice,
never after the success. -/
theorem claim_C4_witness :
    (fetch_html transcriptFail 3 (3 / 2) (fun _ => 0)).sleeps
      = (List.range' 1 (3 : Int).toNat).map (fun k => (3 / 2 : ℚ) ^ k + (fun _ => (0 : ℚ)) k)
  ∧ (fetch_html transcriptThird 3 (3 / 2) (fun _ => 0)).sleeps
      = (List.range' 1 (3 - 1)).map (fun k => (3 / 2 : ℚ) ^ k + (fun _ => (0 : ℚ)) k) := by
  constructor
  · exact (claim_C4 transcriptFail 3 (3 / 2) (fun _ => 0)).1 (fun k _ _ => rfl)
  · exact (claim_C4 transcriptThird 3 (3 / 2) (fun _ => 0)).2 3 "ok!" (by omega) (by omega)
      rfl (fun j h1 h2 => by interval_cases j <;> rfl)

/-- Writing any batch to a file that already has content appends the batch's
data lines after the existing lines, without inserting a header. -/
theorem save_to_csv_existing (b : List Row) (ls : List (List String)) (h : ls ≠ []) :
    save_to_csv b (some ls) = some (ls ++ dataLines b) := by
  cases ls with
  | nil => exact absurd rfl h
  | cons x xs =>
      cases b with
      | nil => simp [save_to_csv, dataLines]
      | cons r0 rest => simp [save_to_csv, _file_exists]

/-- Writing a non-empty batch to an absent or zero-size file writes the
header line first, then the data lines. -/
theorem save_to_csv_fresh (r0 : Row) (rest : List Row) (f : CsvFile)
    (h : f = none ∨ f = some []) :
    save_to_csv (r0 :: rest) f = some (dictKeys r0 :: dataLines (r0 :: rest)) := by
  rcases h with h | h <;> subst h <;> simp [save_to_csv, _file_exists]

/-- Any sequence of writes against a file that already has content only ever
appends data lines; the existing content stays a prefix and no header is
written. -/
theorem runBatches_existing : ∀ (bs : List (List Row)) (ls : List (List String)),
    ls ≠ [] → runBatches bs (some ls) = some (ls ++ (bs.map dataLines).flatten) := by
  intro bs
  induction bs with
  | nil => intro ls _; simp [runBatches]
  | cons b rest ih =>
      intro ls h
      rw [runBatches, save_to_csv_existing b ls h,
        ih (ls ++ dataLines b) (by simp [h])]
      simp [List.flatten]

/-- Claim C9: the delimited-file sink writes the header iff the destination is
absent or has zero size at the moment of the call; across any sequence of
calls whose first batch is non-empty — including calls from separate process
runs — the final content is the single header line followed by all data
lines, and a pre-populated destination only ever has data lines appended. -/
theorem claim_C9 :
    (∀ (r0 : Row) (rest : List Row) (f : CsvFile), f = none ∨ f = some [] →
        save_to_csv (r0 :: rest) f = some (dictKeys r0 :: dataLines (r0 :: rest)))
  ∧ (∀ (b : List Row) (ls : List (List String)), ls ≠ [] →
        save_to_csv b (some ls) = some (ls ++ dataLines b))
  ∧ (∀ (bs : List (List Row)) (r0 : Row) (rest : List Row) (f : CsvFile),
        f = none ∨ f = some [] →
        runBatches ((r0 :: rest) :: bs) f
          = some (dictKeys r0 :: (dataLines (r0 :: rest) ++ (bs.map dataLines).flatten)))
  ∧ (∀ (bs : List (List Row)) (ls : List (List String)), ls ≠ [] →
        runBatches bs (some ls) = some (ls ++ (bs.map dataLines).flatten)) := by
  refine ⟨save_to_csv_fresh, save_to_csv_existing, fun bs r0 rest f hf => ?_,
    runBatches_existing⟩
  rw [runBatches, save_to_csv_fresh r0 rest f hf,
    runBatches_existing bs (dictKeys r0 :: dataLines (r0 :: rest)) (by simp)]
  simp

/-- Claim C9, witness: two runs of one identical batch against an absent
destination yield one header line followed by both runs' data lines. -/
theorem claim_C9_witness :
    runBatches [[rowQ], [rowQ]] none
      = some (dictKeys rowQ :: (dataLines [rowQ] ++ ([[rowQ]].map dataLines).flatten)) :=
  claim_C9.2.2.1 [[rowQ]] rowQ [] none (.inl rfl)

/-- One non-terminal loop cycle: fetch succeeds, both configured sinks
succeed, the limit is not hit and a non-empty next href is present, so the
loop recurses on the joined url with all counters advanced. -/
theorem scrapeLoop_cycle_next (env : ScrapeEnv) (limit : Option Nat)
    (csvp sqlp : Option String) (url html s : String)
    (page fetches cycles : Nat) (csvB sqlB : List (List Record)) (fuel : Nat)
    (hu : env.fetch_html url = .ok html)
    (hcsv : ∀ it p, env.save_to_csv it p = .ok ())
    (hsql : ∀ it p, env.save_to_sqlite it p = .ok ())
    (hs : (env.parse_quotes html).2 = some s) (hsne : s ≠ "")
    (hlim : limitHit limit (page + 1) = false) :
    scrapeLoop env limit csvp sqlp url page fetches cycles csvB sqlB (fuel + 1)
      = scrapeLoop env limit csvp sqlp (env.urljoin url s) (page + 1) (fetches + 1)
          (cycles + 1) (csvSinkStep env csvp (env.parse_quotes html).1 csvB).2
          (sqliteSinkStep env sqlp (env.parse_quotes html).1 sqlB).2 fuel := by
  cases csvp <;> cases sqlp <;>
    simp [scrapeLoop, hu, hs, hsne, hlim, csvSinkStep, sqliteSinkStep, hcsv, hsql]

/-- One terminal loop cycle ending at the page limit. -/
theorem scrapeLoop_cycle_limit (env : ScrapeEnv) (limit : Option Nat)
    (csvp sqlp : Option String) (url html : String)
    (page fetches cycles : Nat) (csvB sqlB : List (List Record)) (fuel : Nat)
    (hu : env.fetch_html url = .ok html)
    (hcsv : ∀ it p, env.save_to_csv it p = .ok ())
    (hsql : ∀ it p, env.save_to_sqlite it p = .ok ())
    (hlim : limitHit limit (page + 1) = true) :
    (scrapeLoop env limit csvp sqlp url page fetches cycles csvB sqlB (fuel + 1)).outcome
        = .reachedLimit
    ∧ (scrapeLoop env limit csvp sqlp url page fetches cycles csvB sqlB (fuel + 1)).fetches
        = fetches + 1
    ∧ (scrapeLoop env limit csvp sqlp url page fetches cycles csvB sqlB (fuel + 1)).cycles
        = cycles + 1 := by
  cases csvp <;> cases sqlp <;>
    simp [scrapeLoop, hu, hlim, csvSinkStep, sqliteSinkStep, hcsv, hsql]

/-- One terminal loop cycle ending at an absent next link. -/
theorem scrapeLoop_cycle_exhaust (env : ScrapeEnv) (limit : Option Nat)
    (csvp sqlp : Option String) (url html : String)
    (page fetches cycles : Nat) (csvB sqlB : List (List Record)) (fuel : Nat)
    (hu : env.fetch_html url = .ok html)
    (hcsv : ∀ it p, env.save_to_csv it p = .ok ())
    (hsql : ∀ it p, env.save_to_sqlite it p = .ok ())
    (hs : (env.parse_quotes html).2 = none)
    (hlim : limitHit limit (page + 1) = false) :
    (scrapeLoop env limit csvp sqlp url page fetches cycles csvB sqlB (fuel + 1)).outcome
        = .exhaustedPages
    ∧ (scrapeLoop env limit csvp sqlp url page fetches cycles csvB sqlB (fuel + 1)).fetches
        = fetches + 1
    ∧ (scrapeLoop env limit csvp sqlp url page fetches cycles csvB sqlB (fuel + 1)).cycles
        = cycles + 1 := by
  cases csvp <;> cases sqlp <;>
    simp [scrapeLoop, hu, hs, hlim, csvSinkStep, sqliteSinkStep, hcsv, hsql]

/-- With a configured positive limit, fetches always succeeding, every page
carrying a non-empty next link and both sinks succeeding, the loop performs
exactly the remaining number of cycles and stops at the limit. -/
theorem scrapeLoop_limit (env : ScrapeEnv) (csvp sqlp : Option String) (L : Nat)
    (hfetch : ∀ u, ∃ h, env.fetch_html u = .ok h)
    (hnext : ∀ h, ∃ s, (env.parse_quotes h).2 = some s ∧ s ≠ "")
    (hcsv : ∀ it p, env.save_to_csv it p = .ok ())
    (hsql : ∀ it p, env.save_to_sqlite it p = .ok ()) :
    ∀ (k : Nat) (url : String) (page fetches cycles : Nat)
      (csvB sqlB : List (List Record)) (fuel : Nat),
      page + k = L → 0 < k → k ≤ fuel →
      ((scrapeLoop env (some L) csvp sqlp url page fetches cycles csvB sqlB fuel).outcome
          = .reachedLimit
      ∧ (scrapeLoop env (some L) csvp sqlp url page fetches cycles csvB sqlB fuel).fetches
          = fetches + k
      ∧ (scrapeLoop env (some L) csvp sqlp url page fetches cycles csvB sqlB fuel).cycles
          = cycles + k) := by
  intro k
  induction k with
  | zero => intro url page fetches cycles csvB sqlB fuel _ h0 _; exact absurd h0 (by omega)
  | succ k ih =>
      intro url page fetches cycles csvB sqlB fuel hpk _ hfuel
      obtain ⟨fuel, rfl⟩ : ∃ f, fuel = f + 1 := ⟨fuel - 1, by omega⟩
      obtain ⟨html, hu⟩ := hfetch url
      by_cases hk : k = 0
      · subst hk
        have hlim : limitHit (some L) (page + 1) = true := by simp [limitHit]; omega
        exact scrapeLoop_cycle_limit env (some L) csvp sqlp url html page fetches cycles
          csvB sqlB fuel hu hcsv hsql hlim
      · obtain ⟨s, hs, hsne⟩ := hnext html
        have hlim : limitHit (some L) (page + 1) = false := by simp [limitHit]; omega
        rw [scrapeLoop_cycle_next env (some L) csvp sqlp url html s page fetches cycles
          csvB sqlB fuel hu hcsv hsql hs hsne hlim]
        have hrec := ih (env.urljoin url s) (page + 1) (fetches + 1) (cycles + 1)
          (csvSinkStep env csvp (env.parse_quotes html).1 csvB).2
          (sqliteSinkStep env sqlp (env.parse_quotes html).1 sqlB).2 fuel
          (by omega) (by omega) (by omega)
        exact ⟨hrec.1, hrec.2.1.trans (by omega), hrec.2.2.trans (by omega)⟩

/-- With no limit, both sinks succeeding and a finite chain of `n` pages whose
last page has no next link, the loop performs exactly `n` cycles and stops on
pagination exhaustion. -/
theorem scrapeLoop_exhaust (env : ScrapeEnv) (csvp sqlp : Option String)
    (hcsv : ∀ it p, env.save_to_csv it p = .ok ())
    (hsql : ∀ it p, env.save_to_sqlite it p = .ok ()) :
    ∀ (n : Nat) (urls : Nat → String) (page fetches cycles : Nat)
      (csvB sqlB : List (List Record)) (fuel : Nat),
      0 < n → n ≤ fuel →
      (∀ i, i + 1 < n → ∃ h s, env.fetch_html (urls i) = .ok h ∧
          (env.parse_quotes h).2 = some s ∧ s ≠ "" ∧
          env.urljoin (urls i) s = urls (i + 1)) →
      (∃ h, env.fetch_html (urls (n - 1)) = .ok h ∧ (env.parse_quotes h).2 = none) →
      ((scrapeLoop env none csvp sqlp (urls 0) page fetches cycles csvB sqlB fuel).outcome
          = .exhaustedPages
      ∧ (scrapeLoop env none csvp sqlp (urls 0) page fetches cycles csvB sqlB fuel).fetches
          = fetches + n
      ∧ (scrapeLoop env none csvp sqlp (urls 0) page fetches cycles csvB sqlB fuel).cycles
          = cycles + n) := by
  intro n
  induction n with
  | zero =>
      intro urls page fetches cycles csvB sqlB fuel h0 _ _ _
      exact absurd h0 (by omega)
  | succ m ih =>
      intro urls page fetches cycles csvB sqlB fuel _ hfuel hchain hlast
      obtain ⟨fuel, rfl⟩ : ∃ f, fuel = f + 1 := ⟨fuel - 1, by omega⟩
      have hlim : limitHit none (page + 1) = false := rfl
      by_cases hm : m = 0
      · subst hm
        obtain ⟨html, hu, hn⟩ := hlast
        exact scrapeLoop_cycle_exhaust env none csvp sqlp (urls 0) html page fetches cycles
          csvB sqlB fuel hu hcsv hsql hn hlim
      · obtain ⟨html, s, hu, hs, hsne, hj⟩ := hchain 0 (by omega)
        rw [scrapeLoop_cycle_next env none csvp sqlp (urls 0) html s page fetches cycles
          csvB sqlB fuel hu hcsv hsql hs hsne hlim, hj]
        have hlast' : ∃ h, env.fetch_html (urls (m - 1 + 1)) = .ok h
            ∧ (env.parse_quotes h).2 = none := by
          have e : m - 1 + 1 = m := by omega
          rw [e]
          exact hlast
        have hrec := ih (fun i => urls (i + 1)) (page + 1) (fetches + 1) (cycles + 1)
          (csvSinkStep env csvp (env.parse_quotes html).1 csvB).2
          (sqliteSinkStep env sqlp (env.parse_quotes html).1 sqlB).2 fuel
          (by omega) (by omega) (fun i hi => hchain (i + 1) (by omega)) hlast'
        exact ⟨hrec.1, hrec.2.1.trans (by omega), hrec.2.2.trans (by omega)⟩

/-- Claim C5: with a configured limit `L > 0` and every fetched page carrying
a next link, `scrape` performs exactly `L` fetch/extract/persist cycles and
terminates at the limit, never issuing fetch `L + 1`; with no limit and a
finite chain of `n` pages whose last page has no next link, it terminates on
pagination exhaustion after exactly `n` cycles. -/
theorem claim_C5 :
    (∀ (env : ScrapeEnv) (L : Nat) (csvp sqlp : Option String) (fuel : Nat),
        (∀ p, env.init_sqlite p = .ok ()) →
        (∀ u, ∃ h, env.fetch_html u = .ok h) →
        (∀ h, ∃ s, (env.parse_quotes h).2 = some s ∧ s ≠ "") →
        (∀ it p, env.save_to_csv it p = .ok ()) →
        (∀ it p, env.save_to_sqlite it p = .ok ()) →
        0 < L → L ≤ fuel →
        ((scrape env (some L) csvp sqlp fuel).outcome = .reachedLimit
        ∧ (scrape env (some L) csvp sqlp fuel).fetches = L
        ∧ (scrape env (some L) csvp sqlp fuel).cycles = L))
  ∧ (∀ (env : ScrapeEnv) (csvp sqlp : Option String) (fuel n : Nat)
        (urls : Nat → String),
        (∀ p, env.init_sqlite p = .ok ()) →
        (∀ it p, env.save_to_csv it p = .ok ()) →
        (∀ it p, env.save_to_sqlite it p = .ok ()) →
        urls 0 = BASE_URL →
        (∀ i, i + 1 < n → ∃ h s, env.fetch_html (urls i) = .ok h ∧
            (env.parse_quotes h).2 = some s ∧ s ≠ "" ∧
            env.urljoin (urls i) s = urls (i + 1)) →
        (∃ h, env.fetch_html (urls (n - 1)) = .ok h ∧ (env.parse_quotes h).2 = none) →
        0 < n → n ≤ fuel →
        ((scrape env none csvp sqlp fuel).outcome = .exhaustedPages
        ∧ (scrape env none csvp sqlp fuel).fetches = n
        ∧ (scrape env none csvp sqlp fuel).cycles = n)) := by
  constructor
  · intro env L csvp sqlp fuel hinit hfetch hnext hcsv hsql hL hfuel
    have hscrape : scrape env (some L) csvp sqlp fuel
        = scrapeLoop env (some L) csvp sqlp BASE_URL 0 0 0 [] [] fuel := by
      cases sqlp with
      | none => rfl
      | some p => simp [scrape, hinit p]
    rw [hscrape]
    have h := scrapeLoop_limit env csvp sqlp L hfetch hnext hcsv hsql L BASE_URL 0 0 0
      [] [] fuel (by omega) hL hfuel
    exact ⟨h.1, h.2.1.trans (by omega), h.2.2.trans (by omega)⟩
  · intro env csvp sqlp fuel n urls hinit hcsv hsql h0 hchain hlast hn hfuel
    have hscrape : scrape env none csvp sqlp fuel
        = scrapeLoop env none csvp sqlp BASE_URL 0 0 0 [] [] fuel := by
      cases sqlp with
      | none => rfl
      | some p => simp [scrape, hinit p]
    rw [hscrape, ← h0]
    have h := scrapeLoop_exhaust env csvp sqlp hcsv hsql n urls 0 0 0 [] [] fuel
      hn hfuel hchain hlast
    exact ⟨h.1, h.2.1.trans (by omega), h.2.2.trans (by omega)⟩

/-- Claim C5, witness: the spec's two scenarios — limit 3 over an endless
chain stops at the limit after exactly 3 cycles and 3 fetches; no limit over
a two-page chain stops exhausted after exactly 2 cycles and 2 fetches. -/
theorem claim_C5_witness :
    ((scrape envAlwaysNext (some 3) (some "data.csv") none 10).outcome = .reachedLimit
    ∧ (scrape envAlwaysNext (some 3) (some "data.csv") none 10).fetches = 3
    ∧ (scrape envAlwaysNext (some 3) (some "data.csv") none 10).cycles = 3)
  ∧ ((scrape envChain2 none (some "data.csv") none 10).outcome = .exhaustedPages
    ∧ (scrape envChain2 none (some "data.csv") none 10).fetches = 2
    ∧ (scrape envChain2 none (some "data.csv") none 10).cycles = 2) := by
  constructor
  · exact claim_C5.1 envAlwaysNext 3 (some "data.csv") none 10
      (fun p => rfl) (fun u => ⟨u, rfl⟩) (fun h => ⟨"/next/", rfl, by decide⟩)
      (fun it p => rfl) (fun it p => rfl) (by omega) (by omega)
  · exact claim_C5.2 envChain2 (some "data.csv") none 10 2 urlsChain2
      (fun p => rfl) (fun it p => rfl) (fun it p => rfl) rfl
      (fun i hi => by
        have hi0 : i = 0 := by omega
        subst hi0
        exact ⟨BASE_URL, "/page/2/", rfl, by simp [envChain2, envAlwaysNext, urlsChain2],
          by decide, rfl⟩)
      ⟨"/page/2/", rfl, by simp [envChain2, envAlwaysNext, urlsChain2, BASE_URL]⟩
      (by omega) (by omega)

/-- Claim C1 (amended): a sink failure propagates as an uncaught exception —
it aborts the whole run after a single fetch, sinks invoked later in the same
cycle never receive the batch, and no further page is fetched. -/
theorem claim_C1 : ∀ (env : ScrapeEnv) (limit : Option Nat) (cp sp : String)
    (fuel : Nat) (html : String),
    env.init_sqlite sp = .ok () →
    env.fetch_html BASE_URL = .ok html →
    ((∀ e, env.save_to_csv (env.parse_quotes html).1 cp = .error e →
        scrape env limit (some cp) (some sp) (fuel + 1)
          = ⟨.excRaised e, 1, 0, [(env.parse_quotes html).1], []⟩)
   ∧ (∀ e, env.save_to_csv (env.parse_quotes html).1 cp = .ok () →
        env.save_to_sqlite (env.parse_quotes html).1 sp = .error e →
        scrape env limit (some cp) (some sp) (fuel + 1)
          = ⟨.excRaised e, 1, 0, [(env.parse_quotes html).1],
             [(env.parse_quotes html).1]⟩)) := by
  intro env limit cp sp fuel html hinit hfetch
  constructor
  · intro e herr
    simp [scrape, hinit, scrapeLoop, hfetch, csvSinkStep, sqliteSinkStep, herr]
  · intro e hok herr
    simp [scrape, hinit, scrapeLoop, hfetch, csvSinkStep, sqliteSinkStep, hok, herr]

/-- Claim C1, counterexample to the claim as stated: with both sinks
configured and pages always offering a next link, a csv write failure on page
1 aborts the run after one fetch and the sqlite sink never receives the
batch — while the same environment with the csv sink unconfigured keeps
traversing and hands every batch to the sqlite sink. -/
theorem claim_C1_counterexample :
    (scrape envCsvFail none (some "data.csv") (some "data.db") 10).outcome
      = .excRaised (.osError "disk full")
  ∧ (scrape envCsvFail none (some "data.csv") (some "data.db") 10).sqliteBatches = []
  ∧ (scrape envCsvFail none (some "data.csv") (some "data.db") 10).fetches = 1
  ∧ (envCsvFail.parse_quotes BASE_URL).2 = some "/next/"
  ∧ (scrape envCsvFail none none (some "data.db") 3).fetches = 3
  ∧ (scrape envCsvFail none none (some "data.db") 3).sqliteBatches
      = [[recQ], [recQ], [recQ]] := by
  refine ⟨rfl, rfl, rfl, rfl, rfl, rfl⟩

/-- Claim C1, witness for the amended claim at a concrete environment. -/
theorem claim_C1_witness :
    scrape envCsvFail none (some "data.csv") (some "data.db") 10
      = ⟨.excRaised (.osError "disk full"), 1, 0, [[recQ]], []⟩ := by
  exact (claim_C1 envCsvFail none "data.csv" "data.db" 9 BASE_URL rfl rfl).1
    (.osError "disk full") rfl

/-- Claim C2 (amended): the exit indicator distinguishes success, failure and
interruption — `0` for a completed run (either reached-limit or
exhausted-pagination, which share it), `2` for interruption, `1` for any
other uncaught exception, including fetch exhaustion. -/
theorem claim_C2 : ∀ (env : ScrapeEnv) (ca sa : String) (la : Int) (fuel : Nat),
    (((scrape env (normalizeLimit la) (normalizeCsvPath ca)
          (normalizeSqlitePath sa) fuel).outcome = .reachedLimit
      ∨ (scrape env (normalizeLimit la) (normalizeCsvPath ca)
          (normalizeSqlitePath sa) fuel).outcome = .exhaustedPages) →
        main env ca sa la fuel = some 0)
  ∧ ((scrape env (normalizeLimit la) (normalizeCsvPath ca)
        (normalizeSqlitePath sa) fuel).outcome = .excRaised .keyboardInterrupt →
        main env ca sa la fuel = some 2)
  ∧ (∀ e, e ≠ PyExc.keyboardInterrupt →
        (scrape env (normalizeLimit la) (normalizeCsvPath ca)
          (normalizeSqlitePath sa) fuel).outcome = .excRaised e →
        main env ca sa la fuel = some 1) := by
  intro env ca sa la fuel
  refine ⟨fun h => ?_, fun h => ?_, fun e hne h => ?_⟩
  · rcases h with h | h <;> simp [main, h]
  · simp [main, h]
  · cases e with
    | keyboardInterrupt => exact absurd rfl hne
    | runtimeError m => simp [main, h]
    | osError m => simp [main, h]

/-- Claim C2, counterexample to the claim as stated: the two completed
outcomes are distinct run outcomes, yet both map to exit indicator `0` — the
four outcomes map to only three distinct indicators (`0`, `1`, `2`). -/
theorem claim_C2_counterexample :
    (scrape envAlwaysNext (some 3) (some "data.csv") none 10).outcome = .reachedLimit
  ∧ (scrape envChain2 none (some "data.csv") none 10).outcome = .exhaustedPages
  ∧ main envAlwaysNext "data.csv" "" 3 10 = some 0
  ∧ main envChain2 "data.csv" "" 0 10 = some 0
  ∧ main envFetchFail "data.csv" "" 0 10 = some 1
  ∧ main envInterrupted "data.csv" "" 0 10 = some 2 := by
  refine ⟨rfl, rfl, rfl, rfl, rfl, rfl⟩

/-- Claim C2, witness for the amended claim at concrete runs. -/
theorem claim_C2_witness :
    main envChain2 "data.csv" "" 0 10 = some 0
  ∧ main envInterrupted "data.csv" "" 0 10 = some 2 :=
  ⟨(claim_C2 envChain2 "data.csv" "" 0 10).1 (Or.inr rfl),
   (claim_C2 envInterrupted "data.csv" "" 0 10).2.1 rfl⟩

end Scraper
